/-
  Verification of the provider failover and dispatch engine of
  openai-resilient-proxy (index.js, the current server version).

  The embedding below is a shallow functional model of the server's
  runtime core:
    * provider configuration records and the runtime provider state
      created from them at startup (`initProviderState`);
    * the selector `getAvailableProviders` (filter of live providers,
      Fisher-Yates shuffled in `random` mode);
    * the per-request dispatch loop of the `chat/completions` handler
      (`dispatch` / `dispatchLoop`), with the upstream OpenAI client
      modelled as an oracle `Nat → UpstreamResult` giving the outcome of
      each successive upstream attempt;
    * the recovery probe `healthCheck`.

  Notes on fidelity:
    * JS object mutation through the aliased records of the filtered
      provider array is modelled by having the dispatch loop walk a list
      of indices into the endpoint's provider-state list
      (`selectIdx` mirrors `getAvailableProviders` at the index level).
    * The running server never assigns a `lastFailedAt` property to a
      provider record (reading it yields `undefined`); the field is kept
      in `ProviderState` as an `Option Nat` that is `none` initially and
      is never written by any modelled operation.
    * The request-body check `!requestBody?.messages ||
      !Array.isArray(requestBody.messages)` rejects exactly the bodies
      whose `messages` value is not an array (an array, even the empty
      one, is truthy); `ChatRequest.messages = none` models "absent or
      not an array", `some l` models an array value `l`.
-/
import Mathlib

namespace ResilientProxy

/-- One message object inside a request body's `messages` array. -/
structure Msg where
  role : String
  content : String
deriving DecidableEq, Repr

/-- A provider entry as written in `openai-endpoints.js` configuration.
`retries` is the documented "number of retries, default 0" field of the
example configuration. -/
structure ProviderConfig where
  name : String
  api_endpoint : String
  api_key : String
  model : Option String := none
  timeout : Option Nat := none
  retries : Option Nat := none
deriving DecidableEq, Repr

/-- Runtime state of one provider, as built by the `providerStates`
initialization of the server.  The source copies `name`, `api_endpoint`,
`api_key`, `model`, `timeout || 30000` and adds `isDead: false`,
`lastUsedAt: null`; it copies no `retries` field and never creates a
`lastFailedAt` property (so `lastFailedAt` is modelled as an always
initially-`none` option that no runtime operation assigns). -/
structure ProviderState where
  name : String
  api_endpoint : String
  api_key : String
  model : Option String
  timeout : Nat
  isDead : Bool
  lastUsedAt : Option Nat
  lastFailedAt : Option Nat
deriving DecidableEq, Repr

/-- `providerStates` mapping for one provider:
`{ name, api_endpoint, api_key, model, timeout: provider.timeout || 30000,
   isDead: false, lastUsedAt: null }`. -/
def initProviderState (p : ProviderConfig) : ProviderState :=
  { name := p.name
    api_endpoint := p.api_endpoint
    api_key := p.api_key
    model := p.model
    timeout := p.timeout.getD 30000
    isDead := false
    lastUsedAt := none
    lastFailedAt := none }

/-- Endpoint selection mode: `"ordered"` (default) or `"random"`. -/
inductive Mode where
  | ordered
  | random
deriving DecidableEq, Repr

/-- Per-endpoint runtime state: `providerStates[endpoint]` holds
`mode: endpoints[endpoint].mode || 'ordered'` and the provider list. -/
structure EndpointState where
  mode : Mode
  providers : List ProviderState
deriving DecidableEq, Repr

/-- Endpoint configuration entry (`mode` optional, defaulted to ordered). -/
structure EndpointConfig where
  mode : Option Mode := none
  providers : List ProviderConfig
deriving DecidableEq, Repr

/-- `providerStates` initialization for one endpoint. -/
def initEndpointState (c : EndpointConfig) : EndpointState :=
  { mode := c.mode.getD .ordered
    providers := c.providers.map initProviderState }

/-- One in-place swap of positions `i` and `j` of a list, the body of the
shuffle loop `[available[i], available[j]] = [available[j], available[i]]`.
Out-of-range positions leave the list unchanged (unreachable in the
source, where both indices are in range). -/
def swapL (l : List α) (i j : Nat) : List α :=
  match l.get? i, l.get? j with
  | some a, some b => (l.set i b).set j a
  | _, _ => l

/-- The Fisher-Yates loop `for (let i = length-1; i > 0; i--)`, with the
random draw `Math.floor(Math.random() * (i + 1))` supplied by `rng i`
reduced into range as `rng i % (i + 1)`.  The first argument is the
current loop index. -/
def fisherYatesFrom (rng : Nat → Nat) : Nat → List α → List α
  | 0, l => l
  | k + 1, l => fisherYatesFrom rng k (swapL l (k + 1) (rng (k + 1) % (k + 2)))

/-- In-place shuffle of the freshly filtered provider list (`random` mode). -/
def fisherYates (rng : Nat → Nat) (l : List α) : List α :=
  fisherYatesFrom rng (l.length - 1) l

/-- `getAvailableProviders`: filter out dead providers; in `random` mode
shuffle the filtered list. -/
def getAvailableProviders (rng : Nat → Nat) (ep : EndpointState) :
    List ProviderState :=
  let available := ep.providers.filter fun p => !p.isDead
  match ep.mode with
  | .ordered => available
  | .random => fisherYates rng available

/-- Index-level selector: positions (into the endpoint's stored provider
list) of the live providers, in stored order, starting at position `i`.
This mirrors `providers.filter(p => !p.isDead)` while keeping the
identity of each selected record, which models the JS aliasing of the
filtered array's elements to the stored records. -/
def liveIdxFrom : Nat → List ProviderState → List Nat
  | _, [] => []
  | i, p :: ps =>
    if p.isDead then liveIdxFrom (i + 1) ps
    else i :: liveIdxFrom (i + 1) ps

/-- Positions of the live providers of a provider-state list. -/
def liveIdx (ps : List ProviderState) : List Nat :=
  liveIdxFrom 0 ps

/-- Index-level `getAvailableProviders`: the candidate positions a
dispatch will walk, shuffled in `random` mode. -/
def selectIdx (rng : Nat → Nat) (ep : EndpointState) : List Nat :=
  match ep.mode with
  | .ordered => liveIdx ep.providers
  | .random => fisherYates rng (liveIdx ep.providers)

/-- Outcome of one upstream attempt, as produced by the opaque OpenAI
client capability.  `createOk body chunks midFail` is a resolved
`client.chat.completions.create` call: consumed as the completion `body`
by a non-streaming dispatch, and as the chunk sequence `chunks` by a
streaming dispatch (`midFail = true` when iterating the stream throws
after relaying exactly `chunks`).  `apiError` is a thrown
`OpenAI.APIError` with its HTTP status; `otherError` is any other thrown
error (network/timeout). -/
inductive UpstreamResult where
  | createOk (body : String) (chunks : List String) (midFail : Bool)
  | apiError (status : Nat) (msg : String)
  | otherError (msg : String)
deriving DecidableEq, Repr

/-- Body of a JSON response produced by the handler: either a relayed
upstream completion or an `{ error: msg }` object. -/
inductive RespBody where
  | completionOf (body : String)
  | errorMsg (msg : String)
deriving DecidableEq, Repr

/-- Caller-visible result of one dispatch: a JSON response with an HTTP
status, or an event-stream of relayed chunks (`done = true` when the
`data: [DONE]` terminator was written before the stream was ended). -/
inductive RelayResult where
  | json (status : Nat) (body : RespBody)
  | streamed (chunks : List String) (done : Bool)
deriving DecidableEq, Repr

/-- The fixed dead-marking status set `[401, 403, 429, 500, 503]`. -/
def deadStatuses : List Nat := [401, 403, 429, 500, 503]

/-- `provider.lastUsedAt = Date.now()` on the record at position `i`. -/
def touchAt (now : Nat) (ps : List ProviderState) (i : Nat) :
    List ProviderState :=
  match ps.get? i with
  | some p => ps.set i { p with lastUsedAt := some now }
  | none => ps

/-- `provider.isDead = true` on the record at position `i`. -/
def markDeadAt (ps : List ProviderState) (i : Nat) : List ProviderState :=
  match ps.get? i with
  | some p => ps.set i { p with isDead := true }
  | none => ps

/-- Result of a dispatch loop run: the response sent to the caller, the
provider-state list after all mutations, and the positions of the
providers attempted, in order. -/
structure DispatchOut where
  response : RelayResult
  providers : List ProviderState
  attempts : List Nat
deriving DecidableEq, Repr

/-- The `for (const provider of availableProviders)` loop of the
`chat/completions` handler.  Arguments: provider states, remaining
candidate positions, the index of the next upstream attempt (feeding the
oracle), and the positions attempted so far.  Each iteration sets
`lastUsedAt = now`, performs the upstream call, and then:
success (non-streaming) returns the completion as JSON; a completed
stream returns the relayed chunks plus the `[DONE]` terminator; a
mid-stream failure marks the provider dead and ends the response as-is;
an `APIError` with status in `deadStatuses` marks the provider dead and
continues with the next candidate; any other `APIError` status is
forwarded as `{ error: message }` with the upstream status; a
non-`APIError` failure marks the provider dead and continues.  When the
candidates are exhausted the uniform `500 { error: 'All providers
failed' }` is returned. -/
def dispatchLoop (oracle : Nat → UpstreamResult) (streamFlag : Bool)
    (now : Nat) :
    List ProviderState → List Nat → Nat → List Nat → DispatchOut
  | ps, [], _, att =>
    ⟨.json 500 (.errorMsg "All providers failed"), ps, att⟩
  | ps, i :: rest, k, att =>
    let ps1 := touchAt now ps i
    match oracle k with
    | .createOk body chunks midFail =>
      if streamFlag then
        if midFail then
          ⟨.streamed chunks false, markDeadAt ps1 i, att ++ [i]⟩
        else
          ⟨.streamed chunks true, ps1, att ++ [i]⟩
      else
        ⟨.json 200 (.completionOf body), ps1, att ++ [i]⟩
    | .apiError s m =>
      if s ∈ deadStatuses then
        dispatchLoop oracle streamFlag now (markDeadAt ps1 i) rest (k + 1)
          (att ++ [i])
      else
        ⟨.json s (.errorMsg m), ps1, att ++ [i]⟩
    | .otherError _ =>
      dispatchLoop oracle streamFlag now (markDeadAt ps1 i) rest (k + 1)
        (att ++ [i])

/-- An inbound `chat/completions` request body.  `messages = none` models
a body whose `messages` value is absent or not an array (rejected by the
handler); `messages = some l` models an array value, including the empty
array (arrays are truthy, so `!requestBody?.messages` is false and
`Array.isArray` holds). -/
structure ChatRequest where
  messages : Option (List Msg)
  stream : Bool
  model : Option String
deriving DecidableEq, Repr

/-- Caller-visible result of one dispatch together with the updated
endpoint state and the attempted provider positions. -/
structure DispatchResult where
  response : RelayResult
  state : EndpointState
  attempts : List Nat
deriving DecidableEq, Repr

/-- One execution of the `chat/completions` handler: reject a body whose
`messages` is not an array with `400 { error: 'Invalid request body' }`;
answer `500 { error: 'No available providers' }` when the selector's
sequence is empty; otherwise run the dispatch loop over the candidate
sequence. -/
def dispatch (rng : Nat → Nat) (oracle : Nat → UpstreamResult) (now : Nat)
    (ep : EndpointState) (req : ChatRequest) : DispatchResult :=
  match req.messages with
  | none => ⟨.json 400 (.errorMsg "Invalid request body"), ep, []⟩
  | some _ =>
    let candidates := selectIdx rng ep
    if candidates.isEmpty then
      ⟨.json 500 (.errorMsg "No available providers"), ep, []⟩
    else
      let out := dispatchLoop oracle req.stream now ep.providers candidates 0 []
      ⟨out.response, { ep with providers := out.providers }, out.attempts⟩

/-- Outcome of the synthetic probe call of `healthCheck`. -/
inductive ProbeResult where
  | ok
  | fail
deriving DecidableEq, Repr

/-- `healthCheck`: a successful probe sets `isDead = false` (the source
assigns nothing else); a failing probe is swallowed by the `catch` and
changes nothing.  The function returns the provider's new state and
never surfaces an error. -/
def healthCheck (probe : ProbeResult) (p : ProviderState) : ProviderState :=
  match probe with
  | .ok => { p with isDead := false }
  | .fail => p

/-! ### Permutation lemmas for the Fisher-Yates shuffle -/

/-- Pulling the element at position `k` of `xs` to the front while
writing `x` into position `k` permutes `x :: xs`. -/
theorem get_cons_set_perm (xs : List α) :
    ∀ (k : Nat) (h : k < xs.length) (x : α),
      List.Perm (xs.get ⟨k, h⟩ :: xs.set k x) (x :: xs) := by
  induction xs with
  | nil => intro k h x; simp at h
  | cons y ys ih =>
    intro k h x
    cases k with
    | zero => simpa using List.Perm.swap x y ys
    | succ k =>
      simp only [List.get_cons_succ, List.set_cons_succ]
      calc
        List.Perm (ys.get ⟨k, by simpa using h⟩ :: y :: ys.set k x)
            (y :: ys.get ⟨k, by simpa using h⟩ :: ys.set k x) :=
          List.Perm.swap y _ _
        _ = _ := rfl
        List.Perm _ (y :: x :: ys) := List.Perm.cons y (ih k _ x)
        List.Perm _ (x :: y :: ys) := List.Perm.swap x y ys

/-- Swapping two in-range positions of a list permutes it. -/
theorem set_set_swap_perm (l : List α) :
    ∀ (i j : Nat) (hi : i < l.length) (hj : j < l.length),
      List.Perm ((l.set i (l.get ⟨j, hj⟩)).set j (l.get ⟨i, hi⟩)) l := by
  induction l with
  | nil => intro i j hi hj; simp at hi
  | cons x xs ih =>
    intro i j hi hj
    cases i with
    | zero =>
      cases j with
      | zero => simp
      | succ j =>
        simp only [List.get_cons_succ, List.get_cons_zero,
          List.set_cons_zero, List.set_cons_succ]
        exact get_cons_set_perm xs j (by simpa using hj) x
    | succ i =>
      cases j with
      | zero =>
        simp only [List.get_cons_succ, List.get_cons_zero,
          List.set_cons_zero, List.set_cons_succ]
        exact get_cons_set_perm xs i (by simpa using hi) x
      | succ j =>
        simp only [List.get_cons_succ, List.set_cons_succ]
        exact List.Perm.cons x (ih i j _ _)

/-- One swap step of the shuffle is a permutation. -/
theorem swapL_perm (l : List α) (i j : Nat) : List.Perm (swapL l i j) l := by
  unfold swapL
  cases hi : l.get? i with
  | none => cases l.get? j <;> exact List.Perm.refl l
  | some a =>
    cases hj : l.get? j with
    | none => exact List.Perm.refl l
    | some b =>
      have hi' : i < l.length := (List.get?_eq_some.mp hi).1
      have hj' : j < l.length := (List.get?_eq_some.mp hj).1
      have ha : l.get ⟨i, hi'⟩ = a := (List.get?_eq_some.mp hi).2
      have hb : l.get ⟨j, hj'⟩ = b := (List.get?_eq_some.mp hj).2
      rw [← ha, ← hb]
      exact set_set_swap_perm l i j hi' hj'

/-- The shuffle loop is a permutation, whatever the random draws. -/
theorem fisherYatesFrom_perm (rng : Nat → Nat) :
    ∀ (k : Nat) (l : List α), List.Perm (fisherYatesFrom rng k l) l := by
  intro k
  induction k with
  | zero => intro l; exact List.Perm.refl l
  | succ k ih =>
    intro l
    exact List.Perm.trans (ih _) (swapL_perm l (k + 1) (rng (k + 1) % (k + 2)))

/-- The Fisher-Yates shuffle is a permutation of its input. -/
theorem fisherYates_perm (rng : Nat → Nat) (l : List α) :
    List.Perm (fisherYates rng l) l :=
  fisherYatesFrom_perm rng (l.length - 1) l

/-! ### Pointwise effect of the per-attempt state mutations -/

/-- `touchAt` rewrites only `lastUsedAt` of the record at its position. -/
theorem touchAt_get?_self (now : Nat) (ps : List ProviderState) (i : Nat) :
    (touchAt now ps i).get? i =
      (ps.get? i).map fun p => { p with lastUsedAt := some now } := by
  unfold touchAt
  cases h : ps.get? i with
  | none => exact h
  | some p =>
    have hlt : i < ps.length := (List.get?_eq_some.mp h).1
    simpa using List.get?_set_eq_of_lt _ hlt

/-- `touchAt` leaves every other position unchanged. -/
theorem touchAt_get?_ne (now : Nat) (ps : List ProviderState) (i j : Nat)
    (h : j ≠ i) : (touchAt now ps i).get? j = ps.get? j := by
  unfold touchAt
  cases hps : ps.get? i with
  | none => rfl
  | some p => exact List.get?_set_ne _ _ (Ne.symm h)

/-- `markDeadAt` rewrites only `isDead` of the record at its position. -/
theorem markDeadAt_get?_self (ps : List ProviderState) (i : Nat) :
    (markDeadAt ps i).get? i =
      (ps.get? i).map fun p => { p with isDead := true } := by
  unfold markDeadAt
  cases h : ps.get? i with
  | none => exact h
  | some p =>
    have hlt : i < ps.length := (List.get?_eq_some.mp h).1
    simpa using List.get?_set_eq_of_lt _ hlt

/-- `markDeadAt` leaves every other position unchanged. -/
theorem markDeadAt_get?_ne (ps : List ProviderState) (i j : Nat)
    (h : j ≠ i) : (markDeadAt ps i).get? j = ps.get? j := by
  unfold markDeadAt
  cases hps : ps.get? i with
  | none => rfl
  | some p => exact List.get?_set_ne _ _ (Ne.symm h)

/-- A provider that is dead stays dead across a `touchAt`. -/
theorem touchAt_isDead_mono (now : Nat) (ps : List ProviderState) (i j : Nat)
    (h : (ps.get? j).map ProviderState.isDead = some true) :
    ((touchAt now ps i).get? j).map ProviderState.isDead = some true := by
  by_cases hji : j = i
  · subst hji
    rw [touchAt_get?_self]
    cases hp : ps.get? j with
    | none => rw [hp] at h; simp at h
    | some p => rw [hp] at h; simpa using h
  · rw [touchAt_get?_ne now ps i j hji]; exact h

/-- A provider that is dead stays dead across a `markDeadAt`. -/
theorem markDeadAt_isDead_mono (ps : List ProviderState) (i j : Nat)
    (h : (ps.get? j).map ProviderState.isDead = some true) :
    ((markDeadAt ps i).get? j).map ProviderState.isDead = some true := by
  by_cases hji : j = i
  · subst hji
    rw [markDeadAt_get?_self]
    cases hp : ps.get? j with
    | none => rw [hp] at h; simp at h
    | some p => rw [hp] at h; simp
  · rw [markDeadAt_get?_ne ps i j hji]; exact h

/-! ### Shape of the attempt sequence produced by the dispatch loop -/

/-- `true` for the upstream outcomes after which the loop moves on to the
next candidate (dead-set `APIError` statuses and non-`APIError`
failures); `false` for the terminal outcomes (any resolved create call,
and a forwarded `APIError`). -/
def continues : UpstreamResult → Bool
  | .createOk _ _ _ => false
  | .apiError s _ => decide (s ∈ deadStatuses)
  | .otherError _ => true

/-- The dispatch loop attempts an initial segment of its candidate
sequence, in order: the attempts it appends are `cands.take n` for some
`n`. -/
theorem dispatchLoop_attempts_take (oracle : Nat → UpstreamResult)
    (streamFlag : Bool) (now : Nat) :
    ∀ (cands : List Nat) (ps : List ProviderState) (k : Nat)
      (att : List Nat),
      ∃ n, (dispatchLoop oracle streamFlag now ps cands k att).attempts =
        att ++ cands.take n := by
  intro cands
  induction cands with
  | nil =>
    intro ps k att
    exact ⟨0, by simp [dispatchLoop]⟩
  | cons i rest ih =>
    intro ps k att
    simp only [dispatchLoop]
    cases oracle k with
    | createOk body chunks midFail =>
      refine ⟨1, ?_⟩
      cases streamFlag <;> cases midFail <;> simp
    | apiError s m =>
      by_cases hs : s ∈ deadStatuses
      · simp only [if_pos hs]
        obtain ⟨n, hn⟩ := ih (markDeadAt (touchAt now ps i) i) (k + 1) (att ++ [i])
        exact ⟨n + 1, by simpa using hn⟩
      · exact ⟨1, by simp [if_neg hs]⟩
    | otherError m =>
      obtain ⟨n, hn⟩ := ih (markDeadAt (touchAt now ps i) i) (k + 1) (att ++ [i])
      exact ⟨n + 1, by simpa using hn⟩

/-- When every upstream outcome is of the continue class, the loop
attempts every candidate and ends in the uniform
`500 { error: 'All providers failed' }` exhaustion response. -/
theorem dispatchLoop_all_continue (oracle : Nat → UpstreamResult)
    (streamFlag : Bool) (now : Nat)
    (hc : ∀ k, continues (oracle k) = true) :
    ∀ (cands : List Nat) (ps : List ProviderState) (k : Nat)
      (att : List Nat),
      (dispatchLoop oracle streamFlag now ps cands k att).attempts =
          att ++ cands ∧
        (dispatchLoop oracle streamFlag now ps cands k att).response =
          .json 500 (.errorMsg "All providers failed") := by
  intro cands
  induction cands with
  | nil => intro ps k att; simp [dispatchLoop]
  | cons i rest ih =>
    intro ps k att
    have hck := hc k
    simp only [dispatchLoop]
    cases hora : oracle k with
    | createOk body chunks midFail => rw [hora] at hck; simp [continues] at hck
    | apiError s m =>
      rw [hora] at hck
      have hs : s ∈ deadStatuses := by simpa [continues] using hck
      simp only [if_pos hs]
      have := ih (markDeadAt (touchAt now ps i) i) (k + 1) (att ++ [i])
      simpa using this
    | otherError m =>
      have := ih (markDeadAt (touchAt now ps i) i) (k + 1) (att ++ [i])
      simpa using this

/-- Across a dispatch-loop run, a dead provider never comes back to
life: the loop writes `isDead := true` and `lastUsedAt` only. -/
theorem dispatchLoop_isDead_mono (oracle : Nat → UpstreamResult)
    (streamFlag : Bool) (now : Nat) :
    ∀ (cands : List Nat) (ps : List ProviderState) (k : Nat)
      (att : List Nat) (j : Nat),
      (ps.get? j).map ProviderState.isDead = some true →
      (((dispatchLoop oracle streamFlag now ps cands k att).providers.get?
          j).map ProviderState.isDead) = some true := by
  intro cands
  induction cands with
  | nil => intro ps k att j h; simpa [dispatchLoop] using h
  | cons i rest ih =>
    intro ps k att j h
    have h1 := touchAt_isDead_mono now ps i j h
    have h2 := markDeadAt_isDead_mono (touchAt now ps i) i j h1
    simp only [dispatchLoop]
    cases oracle k with
    | createOk body chunks midFail =>
      cases streamFlag with
      | false => simpa using h1
      | true =>
        cases midFail with
        | false => simpa using h1
        | true => simpa using h2
    | apiError s m =>
      by_cases hs : s ∈ deadStatuses
      · simp only [if_pos hs]
        exact ih (markDeadAt (touchAt now ps i) i) (k + 1) (att ++ [i]) j h2
      · simpa [if_neg hs] using h1
    | otherError m =>
      exact ih (markDeadAt (touchAt now ps i) i) (k + 1) (att ++ [i]) j h2

/-! ### The candidate sequence of an ordered endpoint -/

/-- Skipping a block of dead providers shifts the scan position. -/
theorem liveIdxFrom_append_dead (d l : List ProviderState)
    (hd : ∀ p ∈ d, p.isDead = true) :
    ∀ i, liveIdxFrom i (d ++ l) = liveIdxFrom (i + d.length) l := by
  induction d with
  | nil => intro i; simp [liveIdxFrom]
  | cons p d ih =>
    intro i
    have hp : p.isDead = true := hd p (by simp)
    have ih' := ih (fun q hq => hd q (by simp [hq]))
    simp only [List.cons_append, liveIdxFrom, hp, if_true, List.append_eq]
    rw [ih' (i + 1)]
    congr 1
    simp
    omega

/-- Scanning a block of live providers yields the consecutive positions. -/
theorem liveIdxFrom_all_live (l : List ProviderState)
    (hl : ∀ p ∈ l, p.isDead = false) :
    ∀ i, liveIdxFrom i l = List.range' i l.length := by
  induction l with
  | nil => intro i; simp [liveIdxFrom]
  | cons p l ih =>
    intro i
    have hp : p.isDead = false := hl p (by simp)
    have ih' := ih (fun q hq => hl q (by simp [hq]))
    simp [liveIdxFrom, hp, List.range'_succ, ih' (i + 1)]

/-- C1: for an ordered endpoint whose first block of configured
providers is dead and whose remaining providers are live, the selector
returns exactly the live tail in configured order, the index-level
candidate sequence is exactly the positions of that tail, the dispatch
loop attempts an in-order initial segment of those positions, and when
no attempt is terminal it attempts exactly all of them. -/
theorem ordered_dispatch_first_dead_rest_live
    (rng : Nat → Nat) (oracle : Nat → UpstreamResult) (now : Nat)
    (psD psL : List ProviderState) (req : ChatRequest) (ms : List Msg)
    (hd : ∀ p ∈ psD, p.isDead = true)
    (hl : ∀ p ∈ psL, p.isDead = false)
    (hm : req.messages = some ms) :
    getAvailableProviders rng ⟨.ordered, psD ++ psL⟩ = psL ∧
    selectIdx rng ⟨.ordered, psD ++ psL⟩ =
      List.range' psD.length psL.length ∧
    (∃ n, (dispatch rng oracle now ⟨.ordered, psD ++ psL⟩ req).attempts =
      (List.range' psD.length psL.length).take n) ∧
    ((∀ k, continues (oracle k) = true) →
      (dispatch rng oracle now ⟨.ordered, psD ++ psL⟩ req).attempts =
        List.range' psD.length psL.length) := by
  have hfilter : (psD ++ psL).filter (fun p => !p.isDead) = psL := by
    rw [List.filter_append]
    have h1 : psD.filter (fun p => !p.isDead) = [] := by
      simp only [List.filter_eq_nil_iff]
      intro p hp
      simp [hd p hp]
    have h2 : psL.filter (fun p => !p.isDead) = psL := by
      rw [List.filter_eq_self]
      intro p hp
      simp [hl p hp]
    rw [h1, h2, List.nil_append]
  have hsel : selectIdx rng ⟨.ordered, psD ++ psL⟩ =
      List.range' psD.length psL.length := by
    show liveIdx (psD ++ psL) = _
    unfold liveIdx
    rw [liveIdxFrom_append_dead psD psL hd 0, Nat.zero_add,
      liveIdxFrom_all_live psL hl psD.length]
  refine ⟨?_, hsel, ?_, ?_⟩
  · show (psD ++ psL).filter (fun p => !p.isDead) = psL
    exact hfilter
  · simp only [dispatch, hm, hsel]
    by_cases he : (List.range' psD.length psL.length).isEmpty
    · simp only [if_pos he]
      exact ⟨0, by simp⟩
    · simp only [if_neg he]
      obtain ⟨n, hn⟩ := dispatchLoop_attempts_take oracle req.stream now
        (List.range' psD.length psL.length) (psD ++ psL) 0 []
      exact ⟨n, by simpa using hn⟩
  · intro hc
    simp only [dispatch, hm, hsel]
    by_cases he : (List.range' psD.length psL.length).isEmpty
    · simp only [if_pos he]
      simp only [List.isEmpty_iff] at he
      simp [he]
    · simp only [if_neg he]
      have := (dispatchLoop_all_continue oracle req.stream now hc
        (List.range' psD.length psL.length) (psD ++ psL) 0 []).1
      simpa using this

/-- Witness for C1: two providers, the first dead; a dispatch whose only
attempt fails with a network error attempts exactly position 1. -/
theorem ordered_dispatch_first_dead_rest_live_witness :
    (getAvailableProviders (fun _ => 0)
        ⟨.ordered,
          [{ name := "A", api_endpoint := "http://a", api_key := "ka",
             model := none, timeout := 30000, isDead := true,
             lastUsedAt := none, lastFailedAt := none },
           { name := "B", api_endpoint := "http://b", api_key := "kb",
             model := none, timeout := 30000, isDead := false,
             lastUsedAt := none, lastFailedAt := none }]⟩ =
      [{ name := "B", api_endpoint := "http://b", api_key := "kb",
         model := none, timeout := 30000, isDead := false,
         lastUsedAt := none, lastFailedAt := none }]) ∧
    (dispatch (fun _ => 0) (fun _ => .otherError "boom") 7
        ⟨.ordered,
          [{ name := "A", api_endpoint := "http://a", api_key := "ka",
             model := none, timeout := 30000, isDead := true,
             lastUsedAt := none, lastFailedAt := none },
           { name := "B", api_endpoint := "http://b", api_key := "kb",
             model := none, timeout := 30000, isDead := false,
             lastUsedAt := none, lastFailedAt := none }]⟩
        { messages := some [], stream := false, model := none }).attempts =
      List.range' 1 1 := by
  have h := ordered_dispatch_first_dead_rest_live (fun _ => 0)
    (fun _ => .otherError "boom") 7
    [{ name := "A", api_endpoint := "http://a", api_key := "ka",
       model := none, timeout := 30000, isDead := true,
       lastUsedAt := none, lastFailedAt := none }]
    [{ name := "B", api_endpoint := "http://b", api_key := "kb",
       model := none, timeout := 30000, isDead := false,
       lastUsedAt := none, lastFailedAt := none }]
    { messages := some [], stream := false, model := none } []
    (by intro p hp; simp at hp; simp [hp])
    (by intro p hp; simp at hp; simp [hp])
    rfl
  refine ⟨?_, ?_⟩
  · simpa using h.1
  · simpa using h.2.2.2 (fun k => rfl)

/-! ### Concrete fixtures used by witnesses and counterexamples -/

/-- A live provider fixture. -/
def liveA : ProviderState :=
  initProviderState { name := "A", api_endpoint := "http://a", api_key := "key-a" }

/-- A second live provider fixture. -/
def liveB : ProviderState :=
  initProviderState { name := "B", api_endpoint := "http://b", api_key := "key-b" }

/-- A dead provider fixture. -/
def deadA : ProviderState := { liveA with isDead := true }

/-- A well-formed non-streaming request fixture. -/
def reqMsg : ChatRequest :=
  { messages := some [{ role := "user", content := "hi" }], stream := false,
    model := none }

/-- C2 (amended): on an upstream `APIError` whose status is in the fixed
set {401, 403, 429, 500, 503}, the attempted provider's `isDead` is set
to `true` (its `lastUsedAt` was set to `now` at the start of the
attempt; no `lastFailedAt` is recorded — the server never writes such a
field), and the loop continues with the next candidate without
surfacing that error. -/
theorem classified_error_marks_dead_and_continues
    (oracle : Nat → UpstreamResult) (streamFlag : Bool) (now : Nat)
    (ps : List ProviderState) (i : Nat) (rest : List Nat) (k : Nat)
    (att : List Nat) (s : Nat) (m : String)
    (ho : oracle k = .apiError s m) (hs : s ∈ deadStatuses) :
    dispatchLoop oracle streamFlag now ps (i :: rest) k att =
      dispatchLoop oracle streamFlag now
        (markDeadAt (touchAt now ps i) i) rest (k + 1) (att ++ [i]) ∧
    (markDeadAt (touchAt now ps i) i).get? i =
      (ps.get? i).map fun p =>
        { p with isDead := true, lastUsedAt := some now } := by
  constructor
  · simp only [dispatchLoop, ho, if_pos hs]
  · rw [markDeadAt_get?_self, touchAt_get?_self]
    cases ps.get? i <;> rfl

/-- Witness for C2's amended theorem at `status = 429`. -/
theorem classified_error_marks_dead_and_continues_witness :
    dispatchLoop (fun _ => .apiError 429 "rate limited") false 5
        [liveA, liveB] [0, 1] 0 [] =
      dispatchLoop (fun _ => .apiError 429 "rate limited") false 5
        (markDeadAt (touchAt 5 [liveA, liveB] 0) 0) [1] 1 [0] ∧
    (markDeadAt (touchAt 5 [liveA, liveB] 0) 0).get? 0 =
      ([liveA, liveB].get? 0).map fun p =>
        { p with isDead := true, lastUsedAt := some 5 } :=
  classified_error_marks_dead_and_continues
    (fun _ => .apiError 429 "rate limited") false 5 [liveA, liveB] 0 [1] 0
    [] 429 "rate limited" rfl (by decide)

/-- Counterexample for C2 as stated: after a 401 from the first
provider at `now = 5`, that provider is marked dead but its
`lastFailedAt` is not `5` — the server records no failure timestamp
(the claim's `lastFailedAt := now` write does not exist in the code). -/
theorem classified_error_lastFailedAt_counterexample :
    ((dispatch (fun _ => 0)
          (fun k => if k = 0 then .apiError 401 "unauthorized"
                    else .createOk "ok" [] false)
          5 ⟨.ordered, [liveA, liveB]⟩ reqMsg).state.providers.get? 0).map
        ProviderState.isDead = some true ∧
    ((dispatch (fun _ => 0)
          (fun k => if k = 0 then .apiError 401 "unauthorized"
                    else .createOk "ok" [] false)
          5 ⟨.ordered, [liveA, liveB]⟩ reqMsg).state.providers.get? 0).map
        ProviderState.lastFailedAt ≠ some (some 5) := by
  constructor
  · rfl
  · decide

/-- C3 (amended): an upstream `APIError` whose 4xx status is outside the
dead-marking set is forwarded verbatim (`{ error: message }` with the
upstream status) immediately, no further candidate is attempted, and
the provider's liveness state is unchanged — only `lastUsedAt`, written
at the start of the attempt, differs from its pre-attempt value. -/
theorem client_error_forwarded_immediately
    (oracle : Nat → UpstreamResult) (streamFlag : Bool) (now : Nat)
    (ps : List ProviderState) (i : Nat) (rest : List Nat) (k : Nat)
    (att : List Nat) (s : Nat) (m : String)
    (ho : oracle k = .apiError s m) (h4a : 400 ≤ s) (h4b : s < 500)
    (hns : s ∉ ([401, 403, 429] : List Nat)) :
    dispatchLoop oracle streamFlag now ps (i :: rest) k att =
      ⟨.json s (.errorMsg m), touchAt now ps i, att ++ [i]⟩ ∧
    (touchAt now ps i).get? i =
      (ps.get? i).map fun p => { p with lastUsedAt := some now } := by
  have hs : s ∉ deadStatuses := by
    simp only [deadStatuses, List.mem_cons, List.not_mem_nil, or_false]
      at hns ⊢
    omega
  constructor
  · simp only [dispatchLoop, ho, if_neg hs]
  · exact touchAt_get?_self now ps i

/-- Witness for C3's amended theorem at `status = 404`. -/
theorem client_error_forwarded_immediately_witness :
    dispatchLoop (fun _ => .apiError 404 "not found") false 7
        [liveA, liveB] [0, 1] 0 [] =
      ⟨.json 404 (.errorMsg "not found"), touchAt 7 [liveA, liveB] 0, [0]⟩ ∧
    (touchAt 7 [liveA, liveB] 0).get? 0 =
      ([liveA, liveB].get? 0).map fun p =>
        { p with lastUsedAt := some 7 } := by
  have h := client_error_forwarded_immediately
    (fun _ => .apiError 404 "not found") false 7 [liveA, liveB] 0 [1] 0 []
    404 "not found" rfl (by omega) (by omega) (by decide)
  simpa using h

/-- Counterexample for C3 as stated: a forwarded 404 leaves `isDead`
alone but does not leave the provider's state unchanged — `lastUsedAt`
goes from `none` to the dispatch time `7`. -/
theorem client_error_state_changed_counterexample :
    (dispatch (fun _ => 0) (fun _ => .apiError 404 "not found") 7
        ⟨.ordered, [liveA]⟩ reqMsg).response =
      .json 404 (.errorMsg "not found") ∧
    ((dispatch (fun _ => 0) (fun _ => .apiError 404 "not found") 7
          ⟨.ordered, [liveA]⟩ reqMsg).state.providers.get? 0).map
        ProviderState.lastUsedAt = some (some 7) ∧
    ([liveA].get? 0).map ProviderState.lastUsedAt = some none := by
  refine ⟨rfl, rfl, rfl⟩

/-- C4 (amended): both exhaustion cases surface a 500 server error that
echoes no upstream error, but with different bodies: an empty selector
sequence answers `{ error: 'No available providers' }`, while running
out of candidates answers `{ error: 'All providers failed' }` — the two
cases are distinguishable by the caller. -/
theorem exhaustion_two_distinct_500s
    (rng : Nat → Nat) (oracle : Nat → UpstreamResult) (now : Nat)
    (ep : EndpointState) (req : ChatRequest) (ms : List Msg)
    (hm : req.messages = some ms) :
    (selectIdx rng ep = [] →
      (dispatch rng oracle now ep req).response =
        .json 500 (.errorMsg "No available providers")) ∧
    (selectIdx rng ep ≠ [] → (∀ k, continues (oracle k) = true) →
      (dispatch rng oracle now ep req).response =
        .json 500 (.errorMsg "All providers failed")) := by
  constructor
  · intro hsel
    simp [dispatch, hm, hsel]
  · intro hne hc
    have hsel : ¬(selectIdx rng ep).isEmpty := by
      simpa [List.isEmpty_iff] using hne
    simp only [dispatch, hm, if_neg hsel]
    exact (dispatchLoop_all_continue oracle req.stream now hc
      (selectIdx rng ep) ep.providers 0 []).2

/-- Witness for C4's amended theorem: an all-dead endpoint yields the
empty-selector body. -/
theorem exhaustion_two_distinct_500s_witness :
    (dispatch (fun _ => 0) (fun _ => .otherError "x") 3
        ⟨.ordered, [deadA]⟩ reqMsg).response =
      .json 500 (.errorMsg "No available providers") := by
  have h := exhaustion_two_distinct_500s (fun _ => 0)
    (fun _ => .otherError "x") 3 ⟨.ordered, [deadA]⟩ reqMsg
    [{ role := "user", content := "hi" }] rfl
  exact h.1 (by decide)

/-- Counterexample for C4 as stated: the two exhaustion cases produce
different caller-visible bodies, so they are distinguishable. -/
theorem exhaustion_distinguishable_counterexample :
    (dispatch (fun _ => 0) (fun _ => .otherError "x") 3
        ⟨.ordered, [deadA]⟩ reqMsg).response =
      .json 500 (.errorMsg "No available providers") ∧
    (dispatch (fun _ => 0) (fun _ => .otherError "x") 3
        ⟨.ordered, [liveA]⟩ reqMsg).response =
      .json 500 (.errorMsg "All providers failed") ∧
    (dispatch (fun _ => 0) (fun _ => .otherError "x") 3
          ⟨.ordered, [deadA]⟩ reqMsg).response ≠
      (dispatch (fun _ => 0) (fun _ => .otherError "x") 3
          ⟨.ordered, [liveA]⟩ reqMsg).response := by
  refine ⟨rfl, rfl, by decide⟩

/-- An endpoint configuration whose single provider asks for one retry,
as documented in `openai-endpoints.example.js`
(`retries: 1 // number of retries, default 0`). -/
def retryCfg : EndpointConfig :=
  { providers := [{ name := "R", api_endpoint := "http://r",
                    api_key := "key-r", retries := some 1 }] }

/-- C5: the provider is configured with `retries = 1`, yet on transient
failure the dispatch makes exactly one attempt against it (position 0
appears once in the attempt list) and falls through to exhaustion — the
server's `providerStates` mapping drops the `retries` field and the
dispatch loop has no retry path, contradicting the configuration
comment "number of retries, default 0". -/
theorem retries_config_ignored :
    retryCfg.providers.map ProviderConfig.retries = [some 1] ∧
    (dispatch (fun _ => 0) (fun _ => .otherError "timeout") 3
        (initEndpointState retryCfg) reqMsg).attempts = [0] ∧
    (dispatch (fun _ => 0) (fun _ => .otherError "timeout") 3
        (initEndpointState retryCfg) reqMsg).response =
      .json 500 (.errorMsg "All providers failed") :=
  ⟨rfl, rfl, rfl⟩

/-- C9 (amended): a request whose `messages` value is absent or not an
array is rejected with `400 { error: 'Invalid request body' }` before
provider selection: the endpoint state is returned untouched and no
provider is attempted.  (An empty `messages` array is *not* rejected:
arrays are truthy, see the counterexample.) -/
theorem invalid_messages_rejected_before_selection
    (rng : Nat → Nat) (oracle : Nat → UpstreamResult) (now : Nat)
    (ep : EndpointState) (req : ChatRequest)
    (hm : req.messages = none) :
    dispatch rng oracle now ep req =
      ⟨.json 400 (.errorMsg "Invalid request body"), ep, []⟩ := by
  simp [dispatch, hm]

/-- Witness for C9's amended theorem. -/
theorem invalid_messages_rejected_before_selection_witness :
    dispatch (fun _ => 0) (fun _ => .createOk "ok" [] false) 3
        ⟨.ordered, [liveA]⟩
        { messages := none, stream := false, model := none } =
      ⟨.json 400 (.errorMsg "Invalid request body"),
        ⟨.ordered, [liveA]⟩, []⟩ :=
  invalid_messages_rejected_before_selection (fun _ => 0)
    (fun _ => .createOk "ok" [] false) 3 ⟨.ordered, [liveA]⟩
    { messages := none, stream := false, model := none } rfl

/-- Counterexample for C9 as stated: a request whose `messages` is the
empty array is not rejected — the provider at position 0 is contacted
and its answer relayed, because `[]` is truthy in JS so the guard
`!requestBody?.messages || !Array.isArray(...)` does not fire. -/
theorem empty_messages_accepted_counterexample :
    (dispatch (fun _ => 0) (fun _ => .createOk "ok" [] false) 3
        ⟨.ordered, [liveA]⟩
        { messages := some [], stream := false, model := none }).attempts =
      [0] ∧
    (dispatch (fun _ => 0) (fun _ => .createOk "ok" [] false) 3
        ⟨.ordered, [liveA]⟩
        { messages := some [], stream := false, model := none }).response =
      .json 200 (.completionOf "ok") :=
  ⟨rfl, rfl⟩

/-- C10: a dispatch execution never flips `isDead` from `true` back to
`false`: every provider that is dead when the handler starts is still
dead in the resulting state, whatever the request, selector draws and
upstream outcomes — in particular a successful completion through one
provider revives no other provider.  (The only modelled operation that
writes `isDead := false` is `healthCheck` on a successful probe.) -/
theorem dispatch_never_revives
    (rng : Nat → Nat) (oracle : Nat → UpstreamResult) (now : Nat)
    (ep : EndpointState) (req : ChatRequest) (j : Nat)
    (h : (ep.providers.get? j).map ProviderState.isDead = some true) :
    (((dispatch rng oracle now ep req).state.providers.get? j).map
      ProviderState.isDead) = some true := by
  unfold dispatch
  cases hm : req.messages with
  | none => exact h
  | some ms =>
    by_cases hsel : (selectIdx rng ep).isEmpty
    · simp only [if_pos hsel]
      exact h
    · simp only [if_neg hsel]
      exact dispatchLoop_isDead_mono oracle req.stream now
        (selectIdx rng ep) ep.providers 0 [] j h

/-- Witness for C10: a dead first provider stays dead while the second
provider answers the request successfully. -/
theorem dispatch_never_revives_witness :
    (((dispatch (fun _ => 0) (fun _ => .createOk "ok" [] false) 3
        ⟨.ordered, [deadA, liveB]⟩ reqMsg).state.providers.get? 0).map
      ProviderState.isDead) = some true :=
  dispatch_never_revives (fun _ => 0) (fun _ => .createOk "ok" [] false) 3
    ⟨.ordered, [deadA, liveB]⟩ reqMsg 0 (by decide)

/-- C6: in `random` mode the selector's output is a permutation of
exactly the live-provider list — same multiset as the filter of the
stored list (no duplicates beyond it, no omissions), and every returned
provider is live.  The shuffle acts on the freshly filtered list only;
the selector is a pure function of the endpoint state and the stored
provider list is not modified. -/
theorem random_selector_permutes_live
    (rng : Nat → Nat) (ps : List ProviderState) :
    List.Perm (getAvailableProviders rng ⟨.random, ps⟩)
      (ps.filter fun p => !p.isDead) ∧
    ∀ p ∈ getAvailableProviders rng ⟨.random, ps⟩, p.isDead = false := by
  have hperm : List.Perm (getAvailableProviders rng ⟨.random, ps⟩)
      (ps.filter fun p => !p.isDead) := by
    show List.Perm (fisherYates rng (ps.filter fun p => !p.isDead)) _
    exact fisherYates_perm rng _
  refine ⟨hperm, ?_⟩
  intro p hp
  have hmem : p ∈ ps.filter fun q => !q.isDead := hperm.mem_iff.mp hp
  have := List.mem_filter.mp hmem
  simpa using this.2

/-- C7: a successful recovery probe flips the provider back to live, and
its `lastFailedAt` is clear afterwards (the server records no failure
timestamp anywhere, so the field is `none` before and after); a failing
probe leaves the provider's state entirely unchanged, and `healthCheck`
returns normally in both cases — no error escapes it. -/
theorem probe_success_revives_probe_failure_noop
    (p : ProviderState) (h : p.lastFailedAt = none) :
    (healthCheck .ok p).isDead = false ∧
    (healthCheck .ok p).lastFailedAt = none ∧
    healthCheck .fail p = p :=
  ⟨rfl, h, rfl⟩

/-- Witness for C7 on a concrete dead provider. -/
theorem probe_success_revives_probe_failure_noop_witness :
    deadA.lastFailedAt = none ∧
    (healthCheck .ok deadA).isDead = false ∧
    (healthCheck .ok deadA).lastFailedAt = none ∧
    healthCheck .fail deadA = deadA :=
  ⟨rfl, probe_success_revives_probe_failure_noop deadA rfl⟩

/-- C8: in a streaming dispatch, when the stream fails after relaying
`chunks` (at least one chunk already produced to the caller), the
response is terminated as-is — the relayed chunks without the `[DONE]`
terminator — the failing provider is marked dead (`lastUsedAt` having
been set at attempt start), and no further candidate is attempted: the
loop returns with only this position appended to the attempt list. -/
theorem midstream_failure_terminates_without_fallback
    (oracle : Nat → UpstreamResult) (now : Nat) (ps : List ProviderState)
    (i : Nat) (rest : List Nat) (k : Nat) (att : List Nat)
    (body : String) (chunks : List String)
    (ho : oracle k = .createOk body chunks true) (hne : chunks ≠ []) :
    dispatchLoop oracle true now ps (i :: rest) k att =
      ⟨.streamed chunks false, markDeadAt (touchAt now ps i) i,
        att ++ [i]⟩ ∧
    (markDeadAt (touchAt now ps i) i).get? i =
      (ps.get? i).map fun p =>
        { p with isDead := true, lastUsedAt := some now } := by
  constructor
  · simp [dispatchLoop, ho]
  · rw [markDeadAt_get?_self, touchAt_get?_self]
    cases ps.get? i <;> rfl

/-- Witness for C8: a stream that fails after two relayed chunks ends
the caller's stream at those chunks and marks the provider dead. -/
theorem midstream_failure_terminates_without_fallback_witness :
    dispatchLoop (fun _ => .createOk "" ["c1", "c2"] true) true 9
        [liveA, liveB] [0, 1] 0 [] =
      ⟨.streamed ["c1", "c2"] false,
        markDeadAt (touchAt 9 [liveA, liveB] 0) 0, [0]⟩ ∧
    (markDeadAt (touchAt 9 [liveA, liveB] 0) 0).get? 0 =
      ([liveA, liveB].get? 0).map fun p =>
        { p with isDead := true, lastUsedAt := some 9 } := by
  have h := midstream_failure_terminates_without_fallback
    (fun _ => .createOk "" ["c1", "c2"] true) 9 [liveA, liveB] 0 [1] 0 []
    "" ["c1", "c2"] rfl (by decide)
  simpa using h

end ResilientProxy
